import Mathlib

/-!
# Verification of the fritzctl authentication core

Shallow embedding of `fritz/fritzclient.go`: challenge-response login against
a FRITZ!Box. The pure computation (challenge parsing, the PBKDF2 and MD5
response layouts, session-id validation, TLS trust-pool resolution) is
translated directly from the Go source. External collaborators are modeled
as parameters:

* `pbkdf2.Key(password, salt, iter, sha256.Size, sha256.New)` from
  `golang.org/x/crypto/pbkdf2` is abstracted as a parameter
  `kdf : List Nat → List Nat → Int → Nat → List Nat`
  (password bytes, salt bytes, iteration count, output length); the source
  always passes `sha256.Size = 32` for the output length.
* `md5.New`/`Sum` from `crypto/md5` is abstracted as a parameter
  `md5sum : List Nat → List Nat`.
* The two HTTP calls are abstracted as an `Except`-valued fetch result and a
  `send` function returning the session id of the decoded reply.
* `time.Sleep` and the HTTP POST are recorded as events in a trace so that
  the ordering and multiplicity of the block-time wait are observable.

Bytes are modeled as `Nat` (always `< 256` when produced by the embedded
decoders); Go `int` is modeled as `Int`.
-/

namespace Fritz

instance {α β : Type} [DecidableEq α] [DecidableEq β] : DecidableEq (Except α β) :=
  fun x y =>
    match x, y with
    | Except.error a, Except.error b =>
      if h : a = b then isTrue (by rw [h]) else isFalse (by intro hc; cases hc; exact h rfl)
    | Except.error _, Except.ok _ => isFalse (by intro hc; cases hc)
    | Except.ok _, Except.error _ => isFalse (by intro hc; cases hc)
    | Except.ok a, Except.ok b =>
      if h : a = b then isTrue (by rw [h]) else isFalse (by intro hc; cases hc; exact h rfl)

/-- UTF-8 encoding of a single character, modeling Go's string-to-byte-slice
conversion, which yields the UTF-8 bytes of the string. -/
def utf8Bytes (c : Char) : List Nat :=
  let n := c.toNat
  if n < 128 then [n]
  else if n < 2048 then [192 + n / 64, 128 + n % 64]
  else if n < 65536 then [224 + n / 4096, 128 + n / 64 % 64, 128 + n % 64]
  else [240 + n / 262144, 128 + n / 4096 % 64, 128 + n / 64 % 64, 128 + n % 64]

/-- Go `[]byte(s)`: the UTF-8 bytes of the string `s`. -/
def strBytes (s : String) : List Nat := s.data.flatMap utf8Bytes

/-- Lowercase hexadecimal digit, as in the table `"0123456789abcdef"` used by
Go's `encoding/hex` and by the `%x` verb of the `fmt` package. -/
def hexDigitChar (n : Nat) : Char :=
  if n < 10 then Char.ofNat (48 + n) else Char.ofNat (87 + n)

/-- Lowercase hex encoding of a byte sequence: models Go's
`hex.EncodeToString` and `fmt.Sprintf`'s `%x` verb applied to a byte slice. -/
def hexEncode : List Nat → List Char
  | [] => []
  | b :: bs => hexDigitChar (b / 16) :: hexDigitChar (b % 16) :: hexEncode bs

/-- Value of one hex digit character; Go's `encoding/hex` accepts both
lowercase and uppercase digits. -/
def hexVal (c : Char) : Option Nat :=
  if '0' ≤ c ∧ c ≤ '9' then some (c.toNat - 48)
  else if 'a' ≤ c ∧ c ≤ 'f' then some (c.toNat - 87)
  else if 'A' ≤ c ∧ c ≤ 'F' then some (c.toNat - 55)
  else none

/-- Go `hex.DecodeString`: decodes hex digit pairs into bytes; it fails on an
odd-length input or on any non-hex character (the concrete error value is not
modeled, only that an error occurred). -/
def hexDecode : List Char → Option (List Nat)
  | [] => some []
  | [_] => none
  | c1 :: c2 :: rest =>
    match hexVal c1, hexVal c2, hexDecode rest with
    | some hi, some lo, some bs => some ((16 * hi + lo) :: bs)
    | _, _, _ => none

/-- Decimal digit accumulation used by `atoi`; fails on the first non-digit. -/
def digitsVal : List Char → Nat → Option Nat
  | [], acc => some acc
  | c :: rest, acc =>
    if '0' ≤ c ∧ c ≤ '9' then digitsVal rest (10 * acc + (c.toNat - 48)) else none

/-- Go `strconv.Atoi`: an optional sign followed by at least one decimal
digit. The 64-bit range check of the Go implementation is not modeled; none
of the verified properties depends on it. -/
def atoi : List Char → Option Int
  | [] => none
  | '+' :: rest => if rest.isEmpty then none else (digitsVal rest 0).map Int.ofNat
  | '-' :: rest => if rest.isEmpty then none else (digitsVal rest 0).map (fun n => -(n : Int))
  | s => (digitsVal s 0).map Int.ofNat

/-- Go `strings.Split(s, "$")`, specialised to the one-character separator
`"$"` used by `fritzclient.go`: the list of `'$'`-separated fields, never
empty, with no field containing `'$'`. -/
def splitOnDollar : List Char → List (List Char)
  | [] => [[]]
  | c :: rest =>
    if c = '$' then [] :: splitOnDollar rest
    else
      match splitOnDollar rest with
      | [] => [[c]]
      | f :: fs => (c :: f) :: fs

/-- Go `strings.HasPrefix s pre`: whether `pre` is an initial segment of
`s`. -/
def goStrStarts (s pre : List Char) : Bool := s.take pre.length == pre

/-- The characters of a string strictly before its first `'$'` (the whole
string when there is none). -/
def beforeDollar : List Char → List Char
  | [] => []
  | c :: rest => if c = '$' then [] else c :: beforeDollar rest

/-- The characters of a string strictly after its first `'$'` (empty when
there is none). -/
def afterDollar : List Char → List Char
  | [] => []
  | c :: rest => if c = '$' then rest else afterDollar rest

/-- `Rights` of `fritzclient.go`: parallel permission-name/access-level
lists, informational only. -/
structure Rights where
  Names : List String
  AccessLevels : List String
deriving DecidableEq

/-- `SessionInfo` of `fritzclient.go`: the mutable session state of the
client. `BlockTime` is a Go `int` (seconds). -/
structure SessionInfo where
  Challenge : String
  SID : String
  BlockTime : Int
  rights : Rights
  IsPBKDF2 : Bool
deriving DecidableEq

/-- `calculatePBKDF2Response` of `fritzclient.go`, parameterised by the
external `pbkdf2.Key` primitive `kdf` (the source calls it with
`sha256.Size = 32` as the derived-key length). The challenge is split on
`'$'`; with fewer than 5 fields, or a field 1 or 3 that `strconv.Atoi`
rejects, or a field 2 or 4 that `hex.DecodeString` rejects (0-based
indices), it returns the corresponding error; otherwise it returns
`fmt.Sprintf("%s$%x", parts[4], hash2)`: the salt2 field verbatim, a `'$'`,
and the lowercase hex of the second-stage key. -/
def calculatePBKDF2Response (kdf : List Nat → List Nat → Int → Nat → List Nat)
    (challenge password : String) : Except String String :=
  match splitOnDollar challenge.data with
  | _ :: p1 :: p2 :: p3 :: p4 :: _ =>
    match atoi p1 with
    | none => Except.error "invalid iteration count"
    | some iter1 =>
      match hexDecode p2 with
      | none => Except.error "invalid salt1"
      | some salt1 =>
        match atoi p3 with
        | none => Except.error "invalid iteration count"
        | some iter2 =>
          match hexDecode p4 with
          | none => Except.error "invalid salt2"
          | some salt2 =>
            let hash1 := kdf (strBytes password) salt1 iter1 32
            let hash2 := kdf hash1 salt2 iter2 32
            Except.ok (String.mk (p4 ++ '$' :: hexEncode hash2))
  | _ => Except.error "invalid PBKDF2 challenge format"

/-- `calculateMD5Response` of `fritzclient.go`, parameterised by the external
`crypto/md5` digest `md5sum`: `challenge + "-" + hex(md5(challenge + "-" +
password))`, the password bytes taken as-is. Total: it never fails. -/
def calculateMD5Response (md5sum : List Nat → List Nat)
    (challenge password : String) : String :=
  let response := challenge ++ "-" ++ password
  let hash := String.mk (hexEncode (md5sum (strBytes response)))
  challenge ++ "-" ++ hash

/-- The pure tail of `obtainChallenge` of `fritzclient.go`: after the XML
payload is decoded (transport abstracted away), the modern-protocol flag is
set from the raw challenge text: `strings.HasPrefix(Challenge, "2$")`. -/
def obtainChallenge (si : SessionInfo) : SessionInfo :=
  { si with IsPBKDF2 := goStrStarts si.Challenge.data ('2' :: '$' :: []) }

/-- Observable events of one login attempt, in order: the response is
computed, the block-time sleep happens (with its full duration in seconds),
the response is submitted. -/
inductive Event where
  | computedResponse (r : String)
  | slept (seconds : Int)
  | submitted (r : String)
deriving DecidableEq

/-- Errors returned by `solveChallenge` of `fritzclient.go`, named by the
messages built there: a failed PBKDF2 response computation (wrapping the
`calculatePBKDF2Response` error), a failed login POST (wrapping the transport
error), or the "challenge not solved" rejection carrying the literal session
id the box returned. -/
inductive SolveError where
  | pbkdf2Failed (msg : String)
  | loginFailed (msg : String)
  | challengeNotSolved (sid : String)
deriving DecidableEq

/-- The response-computation branch of `solveChallenge` (lines 106-115):
the modern path exactly when `IsPBKDF2` is set, the legacy MD5 path
otherwise. -/
def computeResponse (kdf : List Nat → List Nat → Int → Nat → List Nat)
    (md5sum : List Nat → List Nat) (si : SessionInfo) (password : String) :
    Except String String :=
  if si.IsPBKDF2 then calculatePBKDF2Response kdf si.Challenge password
  else Except.ok (calculateMD5Response md5sum si.Challenge password)

/-- Result of `solveChallenge`: the session state after the attempt, the
event trace, and the error if the attempt failed. -/
structure SolveResult where
  state : SessionInfo
  trace : List Event
  err : Option SolveError
deriving DecidableEq

/-- `solveChallenge` of `fritzclient.go` with the HTTP POST abstracted as
`send` (mapping the response string to the SID of the decoded reply, or a
transport error). Faithful to the source order: compute the response (a
PBKDF2 failure returns at once), sleep for `BlockTime` seconds when
`BlockTime > 0`, submit, store the returned SID into the session state, then
reject the sentinel ids `"0000000000000000"` and `""`. -/
def solveChallenge (kdf : List Nat → List Nat → Int → Nat → List Nat)
    (md5sum : List Nat → List Nat) (si : SessionInfo) (password : String)
    (send : String → Except String String) : SolveResult :=
  match computeResponse kdf md5sum si password with
  | Except.error e => ⟨si, [], some (SolveError.pbkdf2Failed e)⟩
  | Except.ok challengeResponse =>
    let waitTrace : List Event :=
      if si.BlockTime > 0 then [Event.slept si.BlockTime] else []
    let tr := Event.computedResponse challengeResponse ::
      (waitTrace ++ [Event.submitted challengeResponse])
    match send challengeResponse with
    | Except.error e => ⟨si, tr, some (SolveError.loginFailed e)⟩
    | Except.ok sid =>
      let si2 := { si with SID := sid }
      if si2.SID = "0000000000000000" ∨ si2.SID = "" then
        ⟨si2, tr, some (SolveError.challengeNotSolved si2.SID)⟩
      else ⟨si2, tr, none⟩

/-- Errors returned by `Login` of `fritzclient.go`: a failed challenge fetch
(wrapped "unable to obtain login challenge") or a failed solve (wrapped
"unable to solve login challenge"). -/
inductive LoginError where
  | obtainChallengeFailed (msg : String)
  | solveChallengeFailed (e : SolveError)
deriving DecidableEq

/-- Result of `Login`: the client's session state if one was stored
(`none` when the challenge fetch failed, before `client.SessionInfo` is
assigned), the event trace, and the error if any. -/
structure LoginResult where
  state : Option SessionInfo
  trace : List Event
  err : Option LoginError
deriving DecidableEq

/-- `Login` of `fritzclient.go` with the challenge fetch abstracted as
`fetch` (the decoded `SessionInfo` or a transport error): on fetch failure
return at once without storing state; otherwise store the session info with
its `IsPBKDF2` flag computed by `obtainChallenge` and run `solveChallenge`.
The state mutated by `solveChallenge` is kept even when it reports an
error. -/
def Login (kdf : List Nat → List Nat → Int → Nat → List Nat)
    (md5sum : List Nat → List Nat) (fetch : Except String SessionInfo)
    (password : String) (send : String → Except String String) : LoginResult :=
  match fetch with
  | Except.error e => ⟨none, [], some (LoginError.obtainChallengeFailed e)⟩
  | Except.ok raw =>
    let si := obtainChallenge raw
    let r := solveChallenge kdf md5sum si password send
    ⟨some r.state, r.trace, r.err.map LoginError.solveChallengeFailed⟩

/-- The PKI part of the configuration consumed by `tlsConfigFrom` and
`buildCertPool`. -/
structure PkiConfig where
  SkipTLSVerify : Bool
  CertificateFile : String
deriving DecidableEq

/-- A custom certificate pool: the PEM blobs appended to it. `none` in the
functions below models Go's `nil` pool, i.e. the platform default trust
store. -/
abbrev CertPool := List (List Nat)

/-- `buildCertPool` of `fritzclient.go`, with `ioutil.ReadFile` abstracted as
`readFile` and `x509.CertPool.AppendCertsFromPEM` success abstracted as
`appendOK`: skip-verify mode builds no pool; an unreadable certificate file
or an invalid PEM bundle falls back to the platform default trust store
(`none`), logged but never an error. -/
def buildCertPool (readFile : String → Except String (List Nat))
    (appendOK : List Nat → Bool) (cfg : PkiConfig) : Option CertPool :=
  if cfg.SkipTLSVerify then none
  else
    match readFile cfg.CertificateFile with
    | Except.error _ => none
    | Except.ok caCert => if appendOK caCert then some [caCert] else none

/-- The TLS configuration of `tlsConfigFrom`: the skip-verification flag and
the root-CA pool (`none` = platform default). -/
structure TLSConfig where
  InsecureSkipVerify : Bool
  RootCAs : Option CertPool
deriving DecidableEq

/-- `tlsConfigFrom` of `fritzclient.go`. -/
def tlsConfigFrom (readFile : String → Except String (List Nat))
    (appendOK : List Nat → Bool) (cfg : PkiConfig) : TLSConfig :=
  ⟨cfg.SkipTLSVerify, buildCertPool readFile appendOK cfg⟩

/-- The TLS-relevant part of `Client`, built once by
`NewClientFromConfig`. -/
structure Client where
  tls : TLSConfig
deriving DecidableEq

/-- `NewClientFromConfig` of `fritzclient.go`: resolves the TLS trust policy
exactly once, at construction. -/
def NewClientFromConfig (readFile : String → Except String (List Nat))
    (appendOK : List Nat → Bool) (cfg : PkiConfig) : Client :=
  ⟨tlsConfigFrom readFile appendOK cfg⟩

/-- A concrete stand-in for the abstract `pbkdf2.Key` primitive, used to
instantiate universally quantified statements on concrete inputs: it returns
the requested number of zero bytes. -/
def kdf0 : List Nat → List Nat → Int → Nat → List Nat :=
  fun _ _ _ len => List.replicate len 0

/-- A concrete stand-in for the abstract `crypto/md5` digest: 16 zero
bytes. -/
def md50 : List Nat → List Nat := fun _ => List.replicate 16 0

/-- A concrete transport stand-in whose reply carries the all-zero sentinel
session id. -/
def sendZero : String → Except String String :=
  fun _ => Except.ok "0000000000000000"

/-- A concrete transport stand-in whose reply carries an ordinary session
id. -/
def sendGood : String → Except String String :=
  fun _ => Except.ok "abcdef0123456789"

/-- A concrete file reader that fails, modeling a missing certificate
file. -/
def readFileMissing : String → Except String (List Nat) :=
  fun _ => Except.error "no such file or directory"

/-- A concrete file reader that succeeds with a fixed blob. -/
def readFileOk : String → Except String (List Nat) := fun _ => Except.ok [1, 2, 3]

/-- A concrete PEM check that rejects every blob, modeling an invalid
bundle. -/
def appendNever : List Nat → Bool := fun _ => false

end Fritz

namespace Fritz

/-! ## Library facts about the embedded Go primitives -/

theorem splitOnDollar_ne_nil (l : List Char) : splitOnDollar l ≠ [] := by
  induction l with
  | nil => simp [splitOnDollar]
  | cons c rest ih =>
    unfold splitOnDollar
    by_cases hc : c = '$'
    · simp [hc]
    · simp only [hc, if_false]
      cases h : splitOnDollar rest with
      | nil => simp
      | cons f fs => simp

theorem not_dollar_mem_splitOnDollar (l : List Char) (f : List Char)
    (hf : f ∈ splitOnDollar l) : '$' ∉ f := by
  induction l generalizing f with
  | nil =>
    simp [splitOnDollar] at hf
    simp [hf]
  | cons c rest ih =>
    unfold splitOnDollar at hf
    by_cases hc : c = '$'
    · simp only [hc, if_true] at hf
      rcases List.mem_cons.mp hf with h | h
      · simp [h]
      · exact ih f h
    · simp only [hc, if_false] at hf
      cases h : splitOnDollar rest with
      | nil => exact absurd h (splitOnDollar_ne_nil rest)
      | cons f0 fs =>
        rw [h] at hf
        rcases List.mem_cons.mp hf with h1 | h1
        · subst h1
          intro hmem
          rcases List.mem_cons.mp hmem with h2 | h2
          · exact hc h2.symm
          · exact ih f0 (h ▸ List.mem_cons_self f0 fs) h2
        · exact ih f (h ▸ List.mem_cons_of_mem f0 h1)

theorem beforeDollar_append (a b : List Char) (ha : '$' ∉ a) :
    beforeDollar (a ++ '$' :: b) = a := by
  induction a with
  | nil => simp [beforeDollar]
  | cons c rest ih =>
    have hc : c ≠ '$' := fun h => ha (h ▸ List.mem_cons_self c rest)
    have hrest : '$' ∉ rest := fun h => ha (List.mem_cons_of_mem c h)
    simp [beforeDollar, hc, ih hrest]

theorem afterDollar_append (a b : List Char) (ha : '$' ∉ a) :
    afterDollar (a ++ '$' :: b) = b := by
  induction a with
  | nil => simp [afterDollar]
  | cons c rest ih =>
    have hc : c ≠ '$' := fun h => ha (h ▸ List.mem_cons_self c rest)
    have hrest : '$' ∉ rest := fun h => ha (List.mem_cons_of_mem c h)
    simp [afterDollar, hc, ih hrest]

theorem hexEncode_length (bs : List Nat) : (hexEncode bs).length = 2 * bs.length := by
  induction bs with
  | nil => simp [hexEncode]
  | cons b rest ih => simp [hexEncode, ih]; ring

theorem hexDigitChar_mem_table : ∀ n < 16, hexDigitChar n ∈ "0123456789abcdef".data := by
  decide

theorem hexEncode_mem_table (bs : List Nat) (hb : ∀ b ∈ bs, b < 256) :
    ∀ ch ∈ hexEncode bs, ch ∈ "0123456789abcdef".data := by
  induction bs with
  | nil => simp [hexEncode]
  | cons b rest ih =>
    intro ch hch
    have hb0 : b < 256 := hb b (List.mem_cons_self b rest)
    have hhi : b / 16 < 16 := Nat.div_lt_of_lt_mul (by omega)
    have hlo : b % 16 < 16 := Nat.mod_lt b (by omega)
    rcases List.mem_cons.mp hch with h | h
    · exact h ▸ hexDigitChar_mem_table _ hhi
    · rcases List.mem_cons.mp h with h2 | h2
      · exact h2 ▸ hexDigitChar_mem_table _ hlo
      · exact ih (fun x hx => hb x (List.mem_cons_of_mem b hx)) ch h2

theorem mem_hex_table_ne_dollar : ∀ ch ∈ "0123456789abcdef".data, ch ≠ '$' := by
  decide

/-- Successful run of `calculatePBKDF2Response`: whenever the challenge splits
into at least five fields and fields 1-4 decode, the result is
`parts[4] + "$" + hex(kdf(kdf(password, salt1, iter1), salt2, iter2))`. -/
theorem calcPBKDF2_ok_eq (kdf : List Nat → List Nat → Int → Nat → List Nat)
    (c p : String) (f0 f1 f2 f3 f4 : List Char) (rest : List (List Char))
    (n1 n2 : Int) (b1 b2 : List Nat)
    (hsplit : splitOnDollar c.data = f0 :: f1 :: f2 :: f3 :: f4 :: rest)
    (h1 : atoi f1 = some n1) (h2 : hexDecode f2 = some b1)
    (h3 : atoi f3 = some n2) (h4 : hexDecode f4 = some b2) :
    calculatePBKDF2Response kdf c p =
      Except.ok (String.mk (f4 ++ '$' ::
        hexEncode (kdf (kdf (strBytes p) b1 n1 32) b2 n2 32))) := by
  simp only [calculatePBKDF2Response, hsplit, h1, h2, h3, h4]

/-- `calculatePBKDF2Response` fails exactly when the challenge has fewer than
five `'$'`-fields, or an iteration field (0-based index 1 or 3) does not
parse as an integer, or a salt field (index 2 or 4) is not valid hex. -/
theorem calcPBKDF2_error_iff (kdf : List Nat → List Nat → Int → Nat → List Nat)
    (c p : String) :
    (∃ e, calculatePBKDF2Response kdf c p = Except.error e) ↔
      (splitOnDollar c.data).length < 5 ∨
      atoi ((splitOnDollar c.data).getD 1 []) = none ∨
      hexDecode ((splitOnDollar c.data).getD 2 []) = none ∨
      atoi ((splitOnDollar c.data).getD 3 []) = none ∨
      hexDecode ((splitOnDollar c.data).getD 4 []) = none := by
  rcases hs : splitOnDollar c.data with _ | ⟨f0, _ | ⟨f1, _ | ⟨f2, _ | ⟨f3, _ | ⟨f4, rest⟩⟩⟩⟩⟩
  · simp [calculatePBKDF2Response, hs, atoi]
  · simp [calculatePBKDF2Response, hs, atoi]
  · simp [calculatePBKDF2Response, hs, atoi]
  · simp [calculatePBKDF2Response, hs, atoi]
  · simp [calculatePBKDF2Response, hs, atoi]
  · cases h1 : atoi f1 with
    | none => simp [calculatePBKDF2Response, hs, h1]
    | some n1 =>
      cases h2 : hexDecode f2 with
      | none => simp [calculatePBKDF2Response, hs, h1, h2]
      | some b1 =>
        cases h3 : atoi f3 with
        | none => simp [calculatePBKDF2Response, hs, h1, h2, h3]
        | some n2 =>
          cases h4 : hexDecode f4 with
          | none => simp [calculatePBKDF2Response, hs, h1, h2, h3, h4]
          | some b2 => simp [calculatePBKDF2Response, hs, h1, h2, h3, h4]

/-! ## Claim theorems -/

/-- C4: for a challenge beginning with `"2$"`, the response computation
returns a malformed-challenge error iff the challenge has fewer than five
`'$'`-fields, or an iteration field does not decode as an integer, or a salt
field is not valid hex; on such an error the handshake fails at once with
the wrapped PBKDF2 error — the trace is empty, so the legacy MD5 path is
never submitted as a fallback — and the error propagates to the caller of
`Login`. -/
theorem modern_malformed (kdf : List Nat → List Nat → Int → Nat → List Nat)
    (md5sum : List Nat → List Nat) (c p : String)
    (send : String → Except String String) (sid0 : String) (bt : Int)
    (rt : Rights) (flag : Bool)
    (hmod : c.data.take 2 = ['2', '$']) :
    ((∃ e, calculatePBKDF2Response kdf c p = Except.error e) ↔
      (splitOnDollar c.data).length < 5 ∨
      atoi ((splitOnDollar c.data).getD 1 []) = none ∨
      hexDecode ((splitOnDollar c.data).getD 2 []) = none ∨
      atoi ((splitOnDollar c.data).getD 3 []) = none ∨
      hexDecode ((splitOnDollar c.data).getD 4 []) = none) ∧
    (∀ e, calculatePBKDF2Response kdf c p = Except.error e →
      Login kdf md5sum (Except.ok ⟨c, sid0, bt, rt, flag⟩) p send =
        ⟨some ⟨c, sid0, bt, rt, true⟩, [],
          some (LoginError.solveChallengeFailed (SolveError.pbkdf2Failed e))⟩) := by
  refine ⟨calcPBKDF2_error_iff kdf c p, fun e he => ?_⟩
  have hflag : goStrStarts c.data ('2' :: '$' :: []) = true := by
    simp [goStrStarts, hmod]
  simp [Login, obtainChallenge, solveChallenge, computeResponse, hflag, he]

/-- Witness for C4: the modern-prefixed challenge `"2$abc"` has only two
`'$'`-fields; its handshake fails with the wrapped PBKDF2 error and an empty
trace. -/
theorem modern_malformed_witness :
    ("2$abc".data.take 2 = ['2', '$']) ∧
    (((∃ e, calculatePBKDF2Response kdf0 "2$abc" "pw" = Except.error e) ↔
      (splitOnDollar ("2$abc".data)).length < 5 ∨
      atoi ((splitOnDollar ("2$abc".data)).getD 1 []) = none ∨
      hexDecode ((splitOnDollar ("2$abc".data)).getD 2 []) = none ∨
      atoi ((splitOnDollar ("2$abc".data)).getD 3 []) = none ∨
      hexDecode ((splitOnDollar ("2$abc".data)).getD 4 []) = none) ∧
    (∀ e, calculatePBKDF2Response kdf0 "2$abc" "pw" = Except.error e →
      Login kdf0 md50 (Except.ok ⟨"2$abc", "", 0, ⟨[], []⟩, false⟩) "pw" sendGood =
        ⟨some ⟨"2$abc", "", 0, ⟨[], []⟩, true⟩, [],
          some (LoginError.solveChallengeFailed (SolveError.pbkdf2Failed e))⟩)) :=
  ⟨by decide,
    modern_malformed kdf0 md50 "2$abc" "pw" sendGood "" 0 ⟨[], []⟩ false (by decide)⟩

/-- C8: when verification is skipped, the TLS configuration has
`InsecureSkipVerify` set and no custom pool; when verification is enabled
and the certificate file is unreadable or not a valid PEM bundle, the
configuration falls back to the platform default trust store (`nil` root-CA
pool) without failing — `tlsConfigFrom` and `buildCertPool` are total — and
`NewClientFromConfig` performs this resolution once, at construction. -/
theorem tls_trust_fallback (readFile : String → Except String (List Nat))
    (appendOK : List Nat → Bool) (cfg : PkiConfig) :
    (cfg.SkipTLSVerify = true →
      tlsConfigFrom readFile appendOK cfg = ⟨true, none⟩) ∧
    (cfg.SkipTLSVerify = false →
      (tlsConfigFrom readFile appendOK cfg).InsecureSkipVerify = false ∧
      (∀ e, readFile cfg.CertificateFile = Except.error e →
        (tlsConfigFrom readFile appendOK cfg).RootCAs = none) ∧
      (∀ bs, readFile cfg.CertificateFile = Except.ok bs → appendOK bs = false →
        (tlsConfigFrom readFile appendOK cfg).RootCAs = none) ∧
      (∀ bs, readFile cfg.CertificateFile = Except.ok bs → appendOK bs = true →
        (tlsConfigFrom readFile appendOK cfg).RootCAs = some [bs])) ∧
    (NewClientFromConfig readFile appendOK cfg).tls = tlsConfigFrom readFile appendOK cfg := by
  refine ⟨fun h => ?_, fun h => ⟨?_, fun e he => ?_, fun bs hbs hap => ?_,
    fun bs hbs hap => ?_⟩, rfl⟩
  · simp [tlsConfigFrom, buildCertPool, h]
  · simp [tlsConfigFrom, h]
  · simp [tlsConfigFrom, buildCertPool, h, he]
  · simp [tlsConfigFrom, buildCertPool, h, hbs, hap]
  · simp [tlsConfigFrom, buildCertPool, h, hbs, hap]

/-- Witness for C8: with verification enabled and a missing certificate
file, construction falls back to the platform default trust store; with
verification skipped, the configuration is insecure with no custom pool. -/
theorem tls_trust_fallback_witness :
    (PkiConfig.mk false "ca.pem").SkipTLSVerify = false ∧
    readFileMissing "ca.pem" = Except.error "no such file or directory" ∧
    (tlsConfigFrom readFileMissing appendNever ⟨false, "ca.pem"⟩).RootCAs = none ∧
    tlsConfigFrom readFileOk appendNever ⟨true, "ca.pem"⟩ = ⟨true, none⟩ :=
  ⟨rfl, rfl,
    ((tls_trust_fallback readFileMissing appendNever ⟨false, "ca.pem"⟩).2.1 rfl).2.1
      "no such file or directory" rfl,
    (tls_trust_fallback readFileOk appendNever ⟨true, "ca.pem"⟩).1 rfl⟩

/-- C9: the modern response computation does not enforce the spec's
`iter1, iter2 ≥ 1` invariant and accepts challenges with more than 5
`'$'`-delimited fields: whenever the challenge splits into at least five
fields whose iteration fields parse as integers — zero and negative values
included — and whose salt fields are valid hex, `calculatePBKDF2Response`
returns a response successfully, the extra fields silently ignored. -/
theorem pbkdf2_no_iteration_check (kdf : List Nat → List Nat → Int → Nat → List Nat)
    (c p : String) (f0 f1 f2 f3 f4 : List Char) (rest : List (List Char))
    (n1 n2 : Int) (b1 b2 : List Nat)
    (hsplit : splitOnDollar c.data = f0 :: f1 :: f2 :: f3 :: f4 :: rest)
    (h1 : atoi f1 = some n1) (h2 : hexDecode f2 = some b1)
    (h3 : atoi f3 = some n2) (h4 : hexDecode f4 = some b2) :
    ∃ s, calculatePBKDF2Response kdf c p = Except.ok s :=
  ⟨_, calcPBKDF2_ok_eq kdf c p f0 f1 f2 f3 f4 rest n1 n2 b1 b2 hsplit h1 h2 h3 h4⟩

/-- Witness for C9: the challenge `"2$0$aa$-3$bb"` has a zero first iteration
count and a negative second one, yet the response computation succeeds; the
six-field challenge `"2$1$aa$1$bb$cc"` also succeeds. -/
theorem pbkdf2_no_iteration_check_witness :
    splitOnDollar ("2$0$aa$-3$bb".data) =
      ["2".data, "0".data, "aa".data, "-3".data, "bb".data] ∧
    atoi ("0".data) = some 0 ∧ hexDecode ("aa".data) = some [170] ∧
    atoi ("-3".data) = some (-3) ∧ hexDecode ("bb".data) = some [187] ∧
    (∃ s, calculatePBKDF2Response kdf0 "2$0$aa$-3$bb" "pw" = Except.ok s) ∧
    (∃ s, calculatePBKDF2Response kdf0 "2$1$aa$1$bb$cc" "pw" = Except.ok s) :=
  ⟨by decide, by decide, by decide, by decide, by decide,
    pbkdf2_no_iteration_check kdf0 "2$0$aa$-3$bb" "pw" ("2".data) ("0".data)
      ("aa".data) ("-3".data) ("bb".data) [] 0 (-3) [170] [187]
      (by decide) (by decide) (by decide) (by decide) (by decide),
    pbkdf2_no_iteration_check kdf0 "2$1$aa$1$bb$cc" "pw" ("2".data) ("1".data)
      ("aa".data) ("1".data) ("bb".data) ["cc".data] 1 1 [170] [187]
      (by decide) (by decide) (by decide) (by decide) (by decide)⟩

/-- C5: for every challenge and password, the legacy response equals
`challenge + "-" + hex(md5(challenge + "-" + password))`, the password bytes
fed to the digest as-is; concretely for challenge `"1234567890abcdef"` and
password `"pw"`. The computation is total (it returns a `String`, not an
`Except`), so it never fails. -/
theorem md5_response_layout (md5sum : List Nat → List Nat) (c p : String) :
    calculateMD5Response md5sum c p =
      c ++ "-" ++ String.mk (hexEncode (md5sum (strBytes (c ++ "-" ++ p)))) ∧
    calculateMD5Response md5sum "1234567890abcdef" "pw" =
      "1234567890abcdef-" ++
        String.mk (hexEncode (md5sum (strBytes "1234567890abcdef-pw"))) :=
  ⟨rfl, rfl⟩

/-- C6: the modern (PBKDF2) path is selected iff the raw challenge begins
with the exact two-character sigil `"2$"`; any other challenge — one with
`"2$"` occurring later included — is routed to the legacy MD5 path, and the
selection never depends on whether the challenge parses as a well-formed
modern record. -/
theorem modern_path_selection (kdf : List Nat → List Nat → Int → Nat → List Nat)
    (md5sum : List Nat → List Nat) (si : SessionInfo) (p : String) :
    ((obtainChallenge si).IsPBKDF2 = true ↔ si.Challenge.data.take 2 = ['2', '$']) ∧
    (si.Challenge.data.take 2 ≠ ['2', '$'] →
      computeResponse kdf md5sum (obtainChallenge si) p =
        Except.ok (calculateMD5Response md5sum si.Challenge p)) ∧
    (si.Challenge.data.take 2 = ['2', '$'] →
      computeResponse kdf md5sum (obtainChallenge si) p =
        calculatePBKDF2Response kdf si.Challenge p) := by
  refine ⟨?_, fun h => ?_, fun h => ?_⟩
  · simp [obtainChallenge, goStrStarts]
  · simp [computeResponse, obtainChallenge, goStrStarts, beq_iff_eq, h]
  · simp [computeResponse, obtainChallenge, goStrStarts, beq_iff_eq, h]

/-- Witness for C6: the challenge `"x2$y"` contains `"2$"` but not at the
start, so the legacy MD5 path is chosen; the malformed modern-looking
challenge `"2$oops"` is still routed to the modern path. -/
theorem modern_path_selection_witness :
    ("x2$y".data.take 2 ≠ ['2', '$']) ∧
    computeResponse kdf0 md50 (obtainChallenge ⟨"x2$y", "", 0, ⟨[], []⟩, true⟩) "pw" =
      Except.ok (calculateMD5Response md50 "x2$y" "pw") ∧
    ("2$oops".data.take 2 = ['2', '$']) ∧
    computeResponse kdf0 md50 (obtainChallenge ⟨"2$oops", "", 0, ⟨[], []⟩, false⟩) "pw" =
      calculatePBKDF2Response kdf0 "2$oops" "pw" :=
  ⟨by decide,
    (modern_path_selection kdf0 md50 ⟨"x2$y", "", 0, ⟨[], []⟩, true⟩ "pw").2.1 (by decide),
    by decide,
    (modern_path_selection kdf0 md50 ⟨"2$oops", "", 0, ⟨[], []⟩, false⟩ "pw").2.2 (by decide)⟩

/-- C1: for every well-formed modern challenge `2$iter1$salt1$iter2$salt2`
(exactly five fields, iteration counts at least 1, valid hex salts) and every
password, the part of the computed response after the first `'$'` equals the
lowercase hex encoding of `kdf(kdf(password, salt1, iter1, 32), salt2,
iter2, 32)` — the second derivation stage consuming the raw 32 derived-key
bytes of the first stage, not their hex encoding — and, the derivation
primitive returning 32 bytes, it is a 64-character lowercase hex string
containing no `'$'`. -/
theorem pbkdf2_digest_part (kdf : List Nat → List Nat → Int → Nat → List Nat)
    (c p : String) (f1 f2 f3 f4 : List Char) (n1 n2 : Int) (b1 b2 : List Nat)
    (hsplit : splitOnDollar c.data = ['2'] :: f1 :: f2 :: f3 :: f4 :: [])
    (h1 : atoi f1 = some n1) (hpos1 : 1 ≤ n1)
    (h2 : hexDecode f2 = some b1)
    (h3 : atoi f3 = some n2) (hpos2 : 1 ≤ n2)
    (h4 : hexDecode f4 = some b2)
    (hlen : (kdf (kdf (strBytes p) b1 n1 32) b2 n2 32).length = 32)
    (hbyte : ∀ b ∈ kdf (kdf (strBytes p) b1 n1 32) b2 n2 32, b < 256) :
    ∃ s, calculatePBKDF2Response kdf c p = Except.ok s ∧
      afterDollar s.data = hexEncode (kdf (kdf (strBytes p) b1 n1 32) b2 n2 32) ∧
      (afterDollar s.data).length = 64 ∧
      ∀ ch ∈ afterDollar s.data, ch ∈ "0123456789abcdef".data ∧ ch ≠ '$' := by
  have hf4 : '$' ∉ f4 :=
    not_dollar_mem_splitOnDollar c.data f4 (by rw [hsplit]; simp)
  have hok := calcPBKDF2_ok_eq kdf c p ['2'] f1 f2 f3 f4 [] n1 n2 b1 b2 hsplit h1 h2 h3 h4
  have hA : afterDollar (String.mk (f4 ++ '$' ::
      hexEncode (kdf (kdf (strBytes p) b1 n1 32) b2 n2 32))).data =
      hexEncode (kdf (kdf (strBytes p) b1 n1 32) b2 n2 32) :=
    afterDollar_append f4 _ hf4
  refine ⟨_, hok, hA, ?_, ?_⟩
  · rw [hA, hexEncode_length, hlen]
  · rw [hA]
    intro ch hch
    have hm := hexEncode_mem_table _ hbyte ch hch
    exact ⟨hm, mem_hex_table_ne_dollar ch hm⟩

/-- Witness for C1: the well-formed modern challenge `"2$1$aa$1$bb"` with
password `"x"`, the derivation primitive instantiated with the 32-zero-byte
stand-in `kdf0`. -/
theorem pbkdf2_digest_part_witness :
    splitOnDollar ("2$1$aa$1$bb".data) =
      ['2'] :: ("1".data) :: ("aa".data) :: ("1".data) :: ("bb".data) :: [] ∧
    atoi ("1".data) = some 1 ∧ (1 : Int) ≤ 1 ∧
    hexDecode ("aa".data) = some [170] ∧ hexDecode ("bb".data) = some [187] ∧
    (kdf0 (kdf0 (strBytes "x") [170] 1 32) [187] 1 32).length = 32 ∧
    (∀ b ∈ kdf0 (kdf0 (strBytes "x") [170] 1 32) [187] 1 32, b < 256) ∧
    (∃ s, calculatePBKDF2Response kdf0 "2$1$aa$1$bb" "x" = Except.ok s ∧
      afterDollar s.data = hexEncode (kdf0 (kdf0 (strBytes "x") [170] 1 32) [187] 1 32) ∧
      (afterDollar s.data).length = 64 ∧
      ∀ ch ∈ afterDollar s.data, ch ∈ "0123456789abcdef".data ∧ ch ≠ '$') :=
  ⟨by decide, by decide, by decide, by decide, by decide, by decide, by decide,
    pbkdf2_digest_part kdf0 "2$1$aa$1$bb" "x" ("1".data) ("aa".data) ("1".data)
      ("bb".data) 1 1 [170] [187] (by decide) (by decide) (by decide)
      (by decide) (by decide) (by decide) (by decide) (by decide) (by decide)⟩

/-- C2 (amended): the part of the computed response before the first `'$'`
is the salt2 field of the challenge verbatim — case preserved — not its
lowercase hex re-encoding; the two coincide only when the field is already
lowercase. In particular, for challenge `"2$10000$5A1B$10000$7C3D"` the
response begins with `"7C3D$"`, not `"7c3d$"`. -/
theorem pbkdf2_salt_part_verbatim (kdf : List Nat → List Nat → Int → Nat → List Nat)
    (c p : String) (f0 f1 f2 f3 f4 : List Char) (rest : List (List Char))
    (n1 n2 : Int) (b1 b2 : List Nat)
    (hsplit : splitOnDollar c.data = f0 :: f1 :: f2 :: f3 :: f4 :: rest)
    (h1 : atoi f1 = some n1) (h2 : hexDecode f2 = some b1)
    (h3 : atoi f3 = some n2) (h4 : hexDecode f4 = some b2) :
    ∃ s, calculatePBKDF2Response kdf c p = Except.ok s ∧ beforeDollar s.data = f4 :=
  ⟨_, calcPBKDF2_ok_eq kdf c p f0 f1 f2 f3 f4 rest n1 n2 b1 b2 hsplit h1 h2 h3 h4,
    beforeDollar_append f4 _
      (not_dollar_mem_splitOnDollar c.data f4 (by rw [hsplit]; simp))⟩

/-- Witness for C2 (amended): at the spec's own concrete scenario, the part
of the response before the first `'$'` is the verbatim field `"7C3D"`. -/
theorem pbkdf2_salt_part_verbatim_witness :
    splitOnDollar ("2$10000$5A1B$10000$7C3D".data) =
      ("2".data) :: ("10000".data) :: ("5A1B".data) :: ("10000".data) ::
        ("7C3D".data) :: [] ∧
    atoi ("10000".data) = some 10000 ∧ hexDecode ("5A1B".data) = some [90, 27] ∧
    hexDecode ("7C3D".data) = some [124, 61] ∧
    (∃ s, calculatePBKDF2Response kdf0 "2$10000$5A1B$10000$7C3D" "secret" =
        Except.ok s ∧ beforeDollar s.data = "7C3D".data) :=
  ⟨by decide, by decide, by decide, by decide,
    pbkdf2_salt_part_verbatim kdf0 "2$10000$5A1B$10000$7C3D" "secret"
      ("2".data) ("10000".data) ("5A1B".data) ("10000".data) ("7C3D".data) []
      10000 10000 [90, 27] [124, 61]
      (by decide) (by decide) (by decide) (by decide) (by decide)⟩

/-- Counterexample to C2 as stated: for challenge
`"2$10000$5A1B$10000$7C3D"` and password `"secret"` the part of the response
before the first `'$'` is `"7C3D"` — the salt2 field verbatim — whereas the
lowercase hex re-encoding of the decoded salt2 bytes `[0x7C, 0x3D]` is
`"7c3d"`; the two differ, and the response does not begin with `"7c3d$"`. -/
theorem pbkdf2_salt_part_lowercase_cex :
    (calculatePBKDF2Response kdf0 "2$10000$5A1B$10000$7C3D" "secret").map
        (fun s => beforeDollar s.data) = Except.ok ("7C3D".data) ∧
    hexDecode ("7C3D".data) = some [124, 61] ∧
    hexEncode [124, 61] = "7c3d".data ∧
    "7C3D".data ≠ "7c3d".data ∧
    (calculatePBKDF2Response kdf0 "2$10000$5A1B$10000$7C3D" "secret").map
        (fun s => goStrStarts s.data ("7c3d$".data)) = Except.ok false := by
  refine ⟨by decide, by decide, by decide, by decide, by decide⟩

/-- C3: after a successful credential submission, the attempt succeeds iff
the returned session id is neither `""` nor `"0000000000000000"`; every other
value is accepted, and on rejection the error carries the literal rejected
session-id value. -/
theorem sid_validation (kdf : List Nat → List Nat → Int → Nat → List Nat)
    (md5sum : List Nat → List Nat) (si : SessionInfo) (p : String)
    (send : String → Except String String) (r sid : String)
    (hr : computeResponse kdf md5sum si p = Except.ok r)
    (hs : send r = Except.ok sid) :
    ((solveChallenge kdf md5sum si p send).err = none ↔
      sid ≠ "" ∧ sid ≠ "0000000000000000") ∧
    (sid = "" ∨ sid = "0000000000000000" →
      (solveChallenge kdf md5sum si p send).err =
        some (SolveError.challengeNotSolved sid)) := by
  by_cases h0 : sid = "0000000000000000" ∨ sid = ""
  · have he : (solveChallenge kdf md5sum si p send).err =
        some (SolveError.challengeNotSolved sid) := by
      simp [solveChallenge, hr, hs, h0]
    refine ⟨?_, fun _ => he⟩
    rw [he]
    simp only [iff_false, not_and, ne_eq]
    constructor
    · intro hc
      cases hc
    · intro hc
      rcases h0 with h | h
      · exact absurd h (hc.2)
      · exact absurd h (hc.1)
  · have he : (solveChallenge kdf md5sum si p send).err = none := by
      simp [solveChallenge, hr, hs, h0]
    push_neg at h0
    refine ⟨by rw [he]; simp [h0.1, h0.2], fun hc => ?_⟩
    rcases hc with h | h
    · exact absurd h h0.2
    · exact absurd h h0.1

/-- Witness for C3: a legacy challenge whose submission is answered with the
all-zero sentinel session id is rejected with the literal sentinel. -/
theorem sid_validation_witness :
    computeResponse kdf0 md50 ⟨"ch", "", 0, ⟨[], []⟩, false⟩ "pw" =
      Except.ok "ch-00000000000000000000000000000000" ∧
    sendZero "ch-00000000000000000000000000000000" = Except.ok "0000000000000000" ∧
    (((solveChallenge kdf0 md50 ⟨"ch", "", 0, ⟨[], []⟩, false⟩ "pw" sendZero).err = none ↔
      ("0000000000000000" : String) ≠ "" ∧
        ("0000000000000000" : String) ≠ "0000000000000000") ∧
    (("0000000000000000" : String) = "" ∨
        ("0000000000000000" : String) = "0000000000000000" →
      (solveChallenge kdf0 md50 ⟨"ch", "", 0, ⟨[], []⟩, false⟩ "pw" sendZero).err =
        some (SolveError.challengeNotSolved "0000000000000000"))) :=
  ⟨by decide, by decide,
    sid_validation kdf0 md50 ⟨"ch", "", 0, ⟨[], []⟩, false⟩ "pw" sendZero
      "ch-00000000000000000000000000000000" "0000000000000000"
      (by decide) (by decide)⟩

/-- C7: once the response is computed, a `BlockTime` of 0 produces no sleep
event; a positive `BlockTime` produces exactly one sleep event, of exactly
that many seconds, after the response is computed and before the submission
is sent. -/
theorem block_time_wait (kdf : List Nat → List Nat → Int → Nat → List Nat)
    (md5sum : List Nat → List Nat) (si : SessionInfo) (p : String)
    (send : String → Except String String) (r : String)
    (hr : computeResponse kdf md5sum si p = Except.ok r) :
    ((solveChallenge kdf md5sum si p send).trace =
      Event.computedResponse r ::
        ((if si.BlockTime > 0 then [Event.slept si.BlockTime] else []) ++
          [Event.submitted r])) ∧
    (si.BlockTime = 0 →
      (solveChallenge kdf md5sum si p send).trace =
        [Event.computedResponse r, Event.submitted r]) ∧
    (si.BlockTime > 0 →
      (solveChallenge kdf md5sum si p send).trace =
        [Event.computedResponse r, Event.slept si.BlockTime, Event.submitted r]) := by
  have key : (solveChallenge kdf md5sum si p send).trace =
      Event.computedResponse r ::
        ((if si.BlockTime > 0 then [Event.slept si.BlockTime] else []) ++
          [Event.submitted r]) := by
    cases hsend : send r with
    | error e => simp [solveChallenge, hr, hsend]
    | ok sid =>
      by_cases h0 : sid = "0000000000000000" ∨ sid = "" <;>
        simp [solveChallenge, hr, hsend, h0]
  refine ⟨key, fun hz => ?_, fun hp => ?_⟩
  · rw [key]
    simp [hz]
  · rw [key]
    simp [hp]

/-- Witness for C7: a legacy challenge with a 5-second block time sleeps for
exactly 5 seconds between response computation and submission. -/
theorem block_time_wait_witness :
    computeResponse kdf0 md50 ⟨"c7", "", 5, ⟨[], []⟩, false⟩ "pw" =
      Except.ok "c7-00000000000000000000000000000000" ∧
    (((solveChallenge kdf0 md50 ⟨"c7", "", 5, ⟨[], []⟩, false⟩ "pw" sendGood).trace =
      Event.computedResponse "c7-00000000000000000000000000000000" ::
        ((if (5 : Int) > 0 then [Event.slept 5] else []) ++
          [Event.submitted "c7-00000000000000000000000000000000"])) ∧
    ((5 : Int) = 0 →
      (solveChallenge kdf0 md50 ⟨"c7", "", 5, ⟨[], []⟩, false⟩ "pw" sendGood).trace =
        [Event.computedResponse "c7-00000000000000000000000000000000",
          Event.submitted "c7-00000000000000000000000000000000"]) ∧
    ((5 : Int) > 0 →
      (solveChallenge kdf0 md50 ⟨"c7", "", 5, ⟨[], []⟩, false⟩ "pw" sendGood).trace =
        [Event.computedResponse "c7-00000000000000000000000000000000",
          Event.slept 5,
          Event.submitted "c7-00000000000000000000000000000000"])) :=
  ⟨by decide,
    block_time_wait kdf0 md50 ⟨"c7", "", 5, ⟨[], []⟩, false⟩ "pw" sendGood
      "c7-00000000000000000000000000000000" (by decide)⟩

/-- C10: whenever the submission succeeds at transport level, the returned
session id is stored into the session state before validation; in
particular, when the attempt fails with the sentinel rejection, the state
retains the rejected sentinel value rather than being rolled back. -/
theorem sid_stored_even_on_rejection (kdf : List Nat → List Nat → Int → Nat → List Nat)
    (md5sum : List Nat → List Nat) (si : SessionInfo) (p : String)
    (send : String → Except String String) (r sid : String)
    (hr : computeResponse kdf md5sum si p = Except.ok r)
    (hs : send r = Except.ok sid) :
    (solveChallenge kdf md5sum si p send).state.SID = sid ∧
    (sid = "" ∨ sid = "0000000000000000" →
      (solveChallenge kdf md5sum si p send).err =
        some (SolveError.challengeNotSolved sid) ∧
      (solveChallenge kdf md5sum si p send).state.SID = sid) := by
  have hstate : (solveChallenge kdf md5sum si p send).state.SID = sid := by
    by_cases h0 : sid = "0000000000000000" ∨ sid = "" <;>
      simp [solveChallenge, hr, hs, h0]
  refine ⟨hstate, fun hsent => ?_⟩
  have h0 : sid = "0000000000000000" ∨ sid = "" :=
    hsent.elim (fun h => Or.inr h) (fun h => Or.inl h)
  exact ⟨by simp [solveChallenge, hr, hs, h0], hstate⟩

/-- Witness for C10: a submission answered with the all-zero sentinel leaves
the sentinel stored in the session state while the attempt fails. -/
theorem sid_stored_even_on_rejection_witness :
    computeResponse kdf0 md50 ⟨"chal", "", 0, ⟨[], []⟩, false⟩ "guess" =
      Except.ok "chal-00000000000000000000000000000000" ∧
    sendZero "chal-00000000000000000000000000000000" = Except.ok "0000000000000000" ∧
    ((solveChallenge kdf0 md50 ⟨"chal", "", 0, ⟨[], []⟩, false⟩ "guess" sendZero).state.SID =
      "0000000000000000" ∧
    (("0000000000000000" : String) = "" ∨
        ("0000000000000000" : String) = "0000000000000000" →
      (solveChallenge kdf0 md50 ⟨"chal", "", 0, ⟨[], []⟩, false⟩ "guess" sendZero).err =
        some (SolveError.challengeNotSolved "0000000000000000") ∧
      (solveChallenge kdf0 md50 ⟨"chal", "", 0, ⟨[], []⟩, false⟩ "guess" sendZero).state.SID =
        "0000000000000000")) :=
  ⟨by decide, by decide,
    sid_stored_even_on_rejection kdf0 md50 ⟨"chal", "", 0, ⟨[], []⟩, false⟩ "guess"
      sendZero "chal-00000000000000000000000000000000" "0000000000000000"
      (by decide) (by decide)⟩

example : splitOnDollar ("2$10000$5A1B$10000$7C3D".data)
    = ["2".data, "10000".data, "5A1B".data, "10000".data, "7C3D".data] := by decide

example : atoi "10000".data = some 10000 := by decide

example : atoi "-3".data = some (-3) := by decide

example : atoi "".data = none := by decide

example : hexDecode "5A1B".data = some [90, 27] := by decide

example : hexDecode "7C3D".data = some [124, 61] := by decide

example : hexDecode "xyz".data = none := by decide

example : hexEncode [124, 61] = "7c3d".data := by decide

example : calculatePBKDF2Response kdf0 "2$10000$5A1B$10000$7C3D" "secret"
    = Except.ok "7C3D$0000000000000000000000000000000000000000000000000000000000000000" := by decide

example : calculateMD5Response md50 "1234567890abcdef" "pw"
    = "1234567890abcdef-00000000000000000000000000000000" := by decide

end Fritz
